import Mathlib

/-!
Shallow embedding of the client-side logic of the Job Application Tracker
front end (src/static/script.js), together with theorems checking the
natural-language specification against it.

Conventions of the embedding:
* JS field values that may be null/undefined/absent are `Option String`;
  `none` stands for null/undefined/absent, `some s` for the string `s`.
* JS string truthiness: null/undefined and the empty string are falsy.
* JS number truthiness: 0 is falsy; ids are embedded as `Int`.
* A network response is embedded as a status code together with the result
  of parsing its body as JSON (`none` when `response.json()` would throw).
* Thrown JS exceptions are embedded as `Except` errors.
* Each event handler becomes a function from the current client state (the
  module-level globals of the script) and the responses the network would
  deliver, to the new client state, the list of requests issued, and flags
  recording user-visible effects (alerts, redirect, downloads).
-/

namespace JobTracker

/-- Evaluation of the JS expression `v || d` for a possibly-absent string
`v`: null/undefined and the empty string are falsy and give the default. -/
def strOr (v : Option String) (d : String) : String :=
  match v with
  | none => d
  | some s => if s == "" then d else s

/-- JS truthiness of a possibly-absent string value. -/
def strTruthy (v : Option String) : Bool :=
  match v with
  | none => false
  | some s => s != ""

/-- JS truthiness of the nullable numeric `editingJobId`: null and 0 are
falsy. -/
def idTruthy (v : Option Int) : Bool :=
  match v with
  | none => false
  | some n => n != 0

/-- A job-application record as the client receives it from the server.
`id` is server-assigned; every other field may be absent. -/
structure Job where
  id : Int
  company : Option String := none
  position : Option String := none
  status : Option String := none
  applied_date : Option String := none
  job_url : Option String := none
  salary : Option String := none
  notes : Option String := none
deriving DecidableEq, Repr

/-- The JSON values the client distinguishes: null, a string, an array of
job records, or an object (of which the client only ever reads the `error`
property, carried here as an optional string). -/
inductive Json where
  | jnull : Json
  | jstr : String → Json
  | jarr : List Job → Json
  | jobj : Option String → Json
deriving DecidableEq, Repr

/-- The JS exceptions the embedded code can raise: `new Error(msg)`, the
exception thrown by a failed `response.json()`, and the exception thrown by
a property access or method call on a value that does not support it. -/
inductive JsErr where
  | thrown : String → JsErr
  | parseErr : JsErr
  | typeErr : JsErr
deriving DecidableEq, Repr

/-- Evaluation of the JS expression `x.error` on a parsed JSON value `x`:
a property access on null throws, an access on a string or array yields
undefined (`none`), and an object yields its `error` property. -/
def getErrorProp (j : Json) : Except JsErr (Option String) :=
  match j with
  | Json.jnull => Except.error JsErr.typeErr
  | Json.jstr _ => Except.ok none
  | Json.jarr _ => Except.ok none
  | Json.jobj e => Except.ok e

/-- A network response as the client observes it: the HTTP status and the
result of parsing the body as JSON (`none` when parsing would throw). -/
structure Response where
  status : Nat
  body : Option Json
deriving DecidableEq, Repr

/-- The `response.ok` flag of the fetch API: status in the range 200-299. -/
def Response.okFlag (r : Response) : Bool :=
  200 ≤ r.status && r.status < 300

instance exceptDecEq {ε α : Type} [DecidableEq ε] [DecidableEq α] : DecidableEq (Except ε α) :=
  fun a b =>
    match a, b with
    | Except.ok x, Except.ok y =>
      if h : x = y then Decidable.isTrue (by rw [h])
      else Decidable.isFalse (by intro hh; cases hh; exact h rfl)
    | Except.error x, Except.error y =>
      if h : x = y then Decidable.isTrue (by rw [h])
      else Decidable.isFalse (by intro hh; cases hh; exact h rfl)
    | Except.ok _, Except.error _ => Decidable.isFalse (by intro hh; cases hh)
    | Except.error _, Except.ok _ => Decidable.isFalse (by intro hh; cases hh)

/-- The observable outcome of one call to `apiRequest`: whether the page
was redirected to the landing route, the value the promise settles with
(`Except.ok none` models resolving with undefined, `Except.error` models a
rejection), whether the global loading indicator was shown and hidden
again, and whether an alert was displayed.  `apiRequest` itself never
alerts. -/
structure ApiOutcome where
  redirected : Bool
  result : Except JsErr (Option Json)
  loadingToggled : Bool
  alerted : Bool
deriving DecidableEq, Repr

/-- Embedding of `apiRequest` (src/static/script.js lines 81-111): show the
loading indicator; on an ok response return the parsed body (a parse
failure propagates); on 401 redirect to the landing route and resolve with
undefined; on any other non-2xx status parse the body, read its `error`
property and throw `new Error(error.error || "Request failed")` — a parse
failure or a property access on null propagates as itself; the loading
indicator is hidden again on every path. -/
def apiRequest (r : Response) : ApiOutcome :=
  if r.okFlag then
    match r.body with
    | some j => { redirected := false, result := Except.ok (some j), loadingToggled := true, alerted := false }
    | none => { redirected := false, result := Except.error JsErr.parseErr, loadingToggled := true, alerted := false }
  else if r.status == 401 then
    { redirected := true, result := Except.ok none, loadingToggled := true, alerted := false }
  else
    match r.body with
    | none => { redirected := false, result := Except.error JsErr.parseErr, loadingToggled := true, alerted := false }
    | some j =>
      match getErrorProp j with
      | Except.error e => { redirected := false, result := Except.error e, loadingToggled := true, alerted := false }
      | Except.ok f => { redirected := false, result := Except.error (JsErr.thrown (strOr f "Request failed")), loadingToggled := true, alerted := false }

/-- One network request as seen on the wire: method and URL.  Bodies are
not inspected by any claim. -/
structure Request where
  method : String
  url : String
deriving DecidableEq, Repr

/-- A request is a mutation when it uses POST, PUT or DELETE. -/
def isMutation (q : Request) : Bool :=
  q.method == "POST" || q.method == "PUT" || q.method == "DELETE"

/-- A GET request for exactly the URL `u`. -/
def isGetUrl (u : String) (q : Request) : Bool :=
  q.method == "GET" && q.url == u

/-- The module-level mutable globals of the script: the record store
`jobs` (the value last assigned to the global, which is undefined — `none`
— after a 401-redirected load), the ambient sort state, the nullable
edit-target id, and whether the modal is shown. -/
structure ClientState where
  jobs : Option Json
  sortColumn : String
  sortOrder : String
  editingJobId : Option Int
  modalOpen : Bool
deriving DecidableEq, Repr

/-- The query URL built by `loadJobs` from the ambient sort state and the
status filter: `sort_by` and `sort_order` always, `status` only when the
filter string is truthy (non-empty). -/
def jobsUrl (col ord fil : String) : String :=
  "/api/jobs?" ++ ("sort_by=" ++ col ++ "&sort_order=" ++ ord ++
    (if fil == "" then "" else "&status=" ++ fil))

/-- Whether `renderTable()` runs to completion on the given value of the
global `jobs`: an array always renders; a string renders only when empty
(its `.length === 0` check short-circuits the render); `null`, undefined
and plain objects make `jobs.length` or `jobs.map` throw, and the
exception is swallowed by the caller of `renderTable`. -/
def renderOk (v : Option Json) : Bool :=
  match v with
  | some (Json.jarr _) => true
  | some (Json.jstr s) => s == ""
  | _ => false

/-- Embedding of `loadJobs` (lines 113-130): issue the list GET with the
current sort/filter parameters; on a settled value assign it to the global
`jobs` and run `renderTable()` followed by `loadStats()` (which issues the
stats GET); every exception — a rejected request or a `renderTable` crash —
is caught and swallowed, leaving the store as already assigned.  Returns
the new state and the requests issued. -/
def loadJobs (st : ClientState) (fil : String) (resp : Response) : ClientState × List Request :=
  let req : Request := { method := "GET", url := jobsUrl st.sortColumn st.sortOrder fil }
  match (apiRequest resp).result with
  | Except.error _ => (st, [req])
  | Except.ok v =>
    let st1 := { st with jobs := v }
    if renderOk v then (st1, [req, { method := "GET", url := "/api/stats" }])
    else (st1, [req])

/-- Embedding of `closeModal` (lines 186-189): hide the modal and clear
the edit-target id, unconditionally. -/
def closeModal (st : ClientState) : ClientState :=
  { st with modalOpen := false, editingJobId := none }

/-- The values of the seven form fields of the modal. -/
structure FormState where
  company : String
  position : String
  status : String
  appliedDate : String
  jobUrl : String
  salary : String
  notes : String
deriving DecidableEq, Repr

/-- Embedding of `populateForm` (lines 191-199): each field gets the
record value with `||` falling back to the empty string, except status,
which falls back to "applied". -/
def populateForm (job : Job) : FormState :=
  { company := strOr job.company ""
  , position := strOr job.position ""
  , status := strOr job.status "applied"
  , appliedDate := strOr job.applied_date ""
  , jobUrl := strOr job.job_url ""
  , salary := strOr job.salary ""
  , notes := strOr job.notes "" }

/-- Modelled from the spec: `form.reset()` restores the HTML default
values of the form, and the HTML file is not part of the source tree; the
spec says `open(null)` clears the form ("clear form", "produces a blank
form"), so reset yields empty fields. -/
def formReset : FormState :=
  { company := "", position := "", status := "", appliedDate := ""
  , jobUrl := "", salary := "", notes := "" }

/-- Evaluation of `jobs.find(j => j.id === i)` on the global `jobs` value:
on an array this is the first record with the given id; on a string or an
object `.find` is not a function, and on null/undefined any property
access throws. -/
def jsFind (v : Option Json) (i : Int) : Except JsErr (Option Job) :=
  match v with
  | some (Json.jarr l) => Except.ok (l.find? (fun j => j.id == i))
  | _ => Except.error JsErr.typeErr

/-- The observable result of `openModal`: the new client state, the form
contents, and the modal title. -/
structure OpenResult where
  st : ClientState
  form : FormState
  title : String
deriving DecidableEq, Repr

/-- Embedding of `openModal` (lines 161-184): set `editingJobId` to the
argument unconditionally; when the argument is truthy (non-null and
non-zero) set the edit title and populate the form from the record found
in the store, leaving the form unchanged when no record matches; otherwise
set the create title, reset the form and default the date field to today;
finally show the modal. -/
def openModal (st : ClientState) (form : FormState) (jobId : Option Int) (today : String) : Except JsErr OpenResult :=
  let st1 := { st with editingJobId := jobId }
  if idTruthy jobId then
    match jsFind st.jobs (jobId.getD 0) with
    | Except.error e => Except.error e
    | Except.ok (some job) =>
      Except.ok { st := { st1 with modalOpen := true }, form := populateForm job, title := "Edit Application" }
    | Except.ok none =>
      Except.ok { st := { st1 with modalOpen := true }, form := form, title := "Edit Application" }
  else
    Except.ok { st := { st1 with modalOpen := true }
              , form := { formReset with appliedDate := today }
              , title := "Add New Application" }

/-- The JS whitespace class stripped by `String.prototype.trim`: space,
tab, line feed, carriage return, vertical tab, form feed, no-break space,
the Unicode line and paragraph separators, and the BOM. -/
def jsSpace (c : Char) : Bool :=
  c == ' ' || c == Char.ofNat 9 || c == Char.ofNat 10 || c == Char.ofNat 13
  || c == Char.ofNat 11 || c == Char.ofNat 12 || c == Char.ofNat 160
  || c == Char.ofNat 8232 || c == Char.ofNat 8233 || c == Char.ofNat 65279

/-- Evaluation of the JS expression `s.trim()`: whitespace removed from
both ends. -/
def jsTrim (s : String) : String :=
  (((s.toList.dropWhile jsSpace).reverse.dropWhile jsSpace).reverse).asString

/-- The payload `handleFormSubmit` builds from the form fields (lines
215-223): company, position, jobUrl, salary and notes are trimmed, and
`appliedDate` becomes null when the field is empty (`value || null`). -/
structure JobData where
  company : String
  position : String
  status : String
  appliedDate : Option String
  jobUrl : String
  salary : String
  notes : String
deriving DecidableEq, Repr

/-- Construction of the payload from the raw form field values. -/
def mkJobData (f : FormState) : JobData :=
  { company := jsTrim f.company
  , position := jsTrim f.position
  , status := f.status
  , appliedDate := if f.appliedDate == "" then none else some f.appliedDate
  , jobUrl := jsTrim f.jobUrl
  , salary := jsTrim f.salary
  , notes := jsTrim f.notes }

/-- Embedding of the request chosen by `saveJob` (lines 141-152): a PUT
keyed by `editingJobId` when that id is truthy, a POST to the collection
otherwise.  The response handling is `apiRequest`, applied by the
caller model. -/
def saveJob (eid : Option Int) : Request :=
  if idTruthy eid then { method := "PUT", url := "/api/jobs/" ++ toString (eid.getD 0) }
  else { method := "POST", url := "/api/jobs" }

/-- The user-visible alerts a submit can raise. -/
structure SubmitFlags where
  validationAlert : Bool
  retryAlert : Bool
deriving DecidableEq, Repr

/-- Embedding of `handleFormSubmit` (lines 202-244): build the payload;
when the trimmed company or position is empty, alert and return without
any network traffic; otherwise issue the save request — when it rejects,
alert the retry message and leave the state unchanged (the modal stays
open); when it settles (including the undefined resolution after a 401
redirect), run `loadJobs` and then `closeModal`. -/
def handleFormSubmit (st : ClientState) (form : FormState) (fil : String) (saveResp reloadResp : Response) : ClientState × List Request × SubmitFlags :=
  let jobData := mkJobData form
  if jobData.company == "" || jobData.position == "" then
    (st, [], { validationAlert := true, retryAlert := false })
  else
    let q := saveJob st.editingJobId
    match (apiRequest saveResp).result with
    | Except.error _ => (st, [q], { validationAlert := false, retryAlert := true })
    | Except.ok _ =>
      let p := loadJobs st fil reloadResp
      (closeModal p.1, q :: p.2, { validationAlert := false, retryAlert := false })

/-- Embedding of the request issued by `deleteJobById` (lines 154-158). -/
def deleteJobById (jobId : Int) : Request :=
  { method := "DELETE", url := "/api/jobs/" ++ toString jobId }

/-- The user-visible alert the delete flow can raise. -/
structure DeleteFlags where
  retryAlert : Bool
deriving DecidableEq, Repr

/-- Embedding of `deleteJob` (lines 247-259): ask for confirmation and
return at once when it is declined; otherwise issue the DELETE — when it
rejects, alert the retry message and leave the store untouched; when it
settles, reload the list. -/
def deleteJob (st : ClientState) (jobId : Int) (confirmed : Bool) (fil : String) (delResp reloadResp : Response) : ClientState × List Request × DeleteFlags :=
  if !confirmed then (st, [], { retryAlert := false })
  else
    let q := deleteJobById jobId
    match (apiRequest delResp).result with
    | Except.error _ => (st, [q], { retryAlert := true })
    | Except.ok _ =>
      let p := loadJobs st fil reloadResp
      (p.1, q :: p.2, { retryAlert := false })

/-- Embedding of `sortTable` (lines 337-356): when the clicked column is
already the active one, flip the order between "asc" and "desc"; otherwise
make it the active column with order "asc"; then trigger `loadJobs` with
the updated ambient state. -/
def sortTable (column : String) (st : ClientState) (fil : String) (resp : Response) : ClientState × List Request :=
  let st1 :=
    if st.sortColumn == column then
      { st with sortOrder := if st.sortOrder == "asc" then "desc" else "asc" }
    else
      { st with sortColumn := column, sortOrder := "asc" }
  loadJobs st1 fil resp

/-- The response to the raw `fetch` in `exportToCSV`: the HTTP status and
whether reading the body as a blob succeeds. -/
structure CsvResponse where
  status : Nat
  blobOk : Bool
deriving DecidableEq, Repr

/-- The `response.ok` flag of the export fetch. -/
def CsvResponse.okFlag (r : CsvResponse) : Bool :=
  200 ≤ r.status && r.status < 300

/-- The observable outcome of `exportToCSV`: whether the retry alert was
shown, whether the page was redirected, whether a file download was
started, and whether the global loading indicator was touched. -/
structure ExportOutcome where
  alerted : Bool
  redirected : Bool
  downloaded : Bool
  loadingToggled : Bool
deriving DecidableEq, Repr

/-- Embedding of `exportToCSV` (lines 365-385): a raw `fetch`, not the
wrapper — a non-ok status of any kind (401 included) throws "Export
failed" into the local catch, which alerts; on an ok status a blob is read
and a download is driven; the function never touches `window.location` or
the loading indicator. -/
def exportToCSV (r : CsvResponse) : ExportOutcome :=
  if !r.okFlag then
    { alerted := true, redirected := false, downloaded := false, loadingToggled := false }
  else if r.blobOk then
    { alerted := false, redirected := false, downloaded := true, loadingToggled := false }
  else
    { alerted := true, redirected := false, downloaded := false, loadingToggled := false }

/-- Evaluation of `s.replace(/t/g, rep)` for a single-character pattern:
every occurrence of the character `t` is replaced by `rep`. -/
def replaceChar (t : Char) (rep : List Char) : List Char → List Char
  | [] => []
  | c :: cs => (if c == t then rep else [c]) ++ replaceChar t rep cs

/-- The apostrophe character, written by code point to keep it out of the
source text. -/
def apos : Char := Char.ofNat 39

/-- The five chained global replacements of `escapeHtml`, in source
order: ampersand first, then the four markup characters. -/
def escChain (s : List Char) : List Char :=
  replaceChar apos (String.toList "&#039;")
    (replaceChar '"' (String.toList "&quot;")
      (replaceChar '>' (String.toList "&gt;")
        (replaceChar '<' (String.toList "&lt;")
          (replaceChar '&' (String.toList "&amp;") s))))

/-- Embedding of `escapeHtml` (lines 326-334): a falsy input —
null, undefined or the empty string — yields the empty string; otherwise
the five global replacements are applied in source order, ampersand
first. -/
def escapeHtml (v : Option String) : String :=
  match v with
  | none => ""
  | some s =>
    if s == "" then ""
    else (escChain s.toList).asString

/-- The expansion of one character under the composed replacements of
`escapeHtml`. -/
def entityOf (c : Char) : List Char :=
  if c == '&' then String.toList "&amp;"
  else if c == '<' then String.toList "&lt;"
  else if c == '>' then String.toList "&gt;"
  else if c == '"' then String.toList "&quot;"
  else if c == apos then String.toList "&#039;"
  else [c]

/-- Character-by-character form of the escaping, used to reason about the
composed replacements. -/
def escapeMap : List Char → List Char
  | [] => []
  | c :: cs => entityOf c ++ escapeMap cs

/-- The tails of the five entities `escapeHtml` can introduce (their text
after the ampersand). -/
def entTails : List (List Char) :=
  [String.toList "amp;", String.toList "lt;", String.toList "gt;",
   String.toList "quot;", String.toList "#039;"]

/-- No raw markup-significant character: the string contains no
less-than, greater-than, double-quote or apostrophe character. -/
def noRaw (l : List Char) : Bool :=
  l.all (fun c => !(c == '<' || c == '>' || c == '"' || c == apos))

/-- Every ampersand heads one of the five inserted entities: at each
ampersand, one of the entity tails follows immediately. -/
def ampOk : List Char → Bool
  | [] => true
  | c :: cs =>
    (if c == '&' then entTails.any (fun e => e.isPrefixOf cs) else true) && ampOk cs

/-- Evaluation of the raw template interpolation of a possibly-absent
string, as in the status class attribute: undefined prints as the text
"undefined". -/
def jsStr (v : Option String) : String :=
  match v with
  | none => "undefined"
  | some s => s

/-- Embedding of `capitalizeFirst` (lines 321-324): a falsy value yields
the empty string, otherwise the first character is upper-cased. -/
def capitalizeFirst (v : Option String) : String :=
  match v with
  | none => ""
  | some s =>
    if s == "" then ""
    else ((s.toList.headD ' ').toUpper.toString) ++ (s.toList.drop 1).asString

/-- Embedding of the row template of `renderTable` (lines 274-298) for one
record, with the whitespace of the template literal normalized away.  The
date cell goes through `formatDate`, whose body uses the browser Date and
locale machinery; it is taken as a parameter `fmtDate` of the embedding.
The three user-supplied string fields are interpolated through
`escapeHtml`; the link is emitted only when the raw `job_url` is truthy. -/
def renderRow (fmtDate : Option String → String) (job : Job) : String :=
  "<tr><td><div><strong>" ++ escapeHtml job.company ++ "</strong>"
  ++ (if strTruthy job.job_url then
        "<br><a href=\"" ++ escapeHtml job.job_url
        ++ "\" target=\"_blank\" style=\"font-size: 12px; color: #007bff;\" title=\"View Job Posting\">🔗 View Job</a>"
      else "")
  ++ "</div></td><td>" ++ escapeHtml job.position
  ++ "</td><td><span class=\"status " ++ jsStr job.status ++ "\">" ++ capitalizeFirst job.status
  ++ "</span></td><td>" ++ fmtDate job.applied_date
  ++ "</td><td><div class=\"action-buttons\">"
  ++ "<button class=\"btn btn-primary\" onclick=\"openModal(" ++ toString job.id ++ ")\" title=\"Edit Application\">✏️ Edit</button>"
  ++ "<button class=\"btn btn-danger\" onclick=\"deleteJob(" ++ toString job.id ++ ")\" title=\"Delete Application\">🗑️ Delete</button>"
  ++ "</div></td></tr>"

/-- The same row template, abstracted over the three already-escaped
user-supplied fields; it applies no escaping of its own.  Comparing
`renderRow` against it states which interpolations pass through
`escapeHtml`. -/
def rowTemplate (fmtDate : Option String → String) (job : Job) (ecompany eurl eposition : String) : String :=
  "<tr><td><div><strong>" ++ ecompany ++ "</strong>"
  ++ (if strTruthy job.job_url then
        "<br><a href=\"" ++ eurl
        ++ "\" target=\"_blank\" style=\"font-size: 12px; color: #007bff;\" title=\"View Job Posting\">🔗 View Job</a>"
      else "")
  ++ "</div></td><td>" ++ eposition
  ++ "</td><td><span class=\"status " ++ jsStr job.status ++ "\">" ++ capitalizeFirst job.status
  ++ "</span></td><td>" ++ fmtDate job.applied_date
  ++ "</td><td><div class=\"action-buttons\">"
  ++ "<button class=\"btn btn-primary\" onclick=\"openModal(" ++ toString job.id ++ ")\" title=\"Edit Application\">✏️ Edit</button>"
  ++ "<button class=\"btn btn-danger\" onclick=\"deleteJob(" ++ toString job.id ++ ")\" title=\"Delete Application\">🗑️ Delete</button>"
  ++ "</div></td></tr>"

/-! Lemmas about the escaping chain. -/

lemma replaceChar_append (t : Char) (rep a b : List Char) :
    replaceChar t rep (a ++ b) = replaceChar t rep a ++ replaceChar t rep b := by
  induction a with
  | nil => rfl
  | cons c cs ih => simp [replaceChar, ih, List.append_assoc]

lemma escChain_cons (c : Char) (cs : List Char) :
    escChain (c :: cs) = entityOf c ++ escChain cs := by
  have h : replaceChar '&' (String.toList "&amp;") (c :: cs)
      = (if c == '&' then String.toList "&amp;" else [c])
        ++ replaceChar '&' (String.toList "&amp;") cs := rfl
  simp only [escChain, h, replaceChar_append]
  congr 1
  by_cases h1 : c = '&'
  · subst h1; decide
  by_cases h2 : c = '<'
  · subst h2; decide
  by_cases h3 : c = '>'
  · subst h3; decide
  by_cases h4 : c = '"'
  · subst h4; decide
  by_cases h5 : c = apos
  · subst h5; decide
  simp [entityOf, replaceChar, h1, h2, h3, h4, h5]

lemma escChain_eq_escapeMap (s : List Char) : escChain s = escapeMap s := by
  induction s with
  | nil => rfl
  | cons c cs ih => rw [escChain_cons, ih]; rfl

lemma noRaw_append (a b : List Char) : noRaw (a ++ b) = (noRaw a && noRaw b) := by
  simp [noRaw, List.all_append]

lemma noRaw_entityOf (c : Char) : noRaw (entityOf c) = true := by
  by_cases h1 : c = '&'
  · subst h1; decide
  by_cases h2 : c = '<'
  · subst h2; decide
  by_cases h3 : c = '>'
  · subst h3; decide
  by_cases h4 : c = '"'
  · subst h4; decide
  by_cases h5 : c = apos
  · subst h5; decide
  simp [entityOf, noRaw, h1, h2, h3, h4, h5]

lemma noRaw_escapeMap (s : List Char) : noRaw (escapeMap s) = true := by
  induction s with
  | nil => rfl
  | cons c cs ih => rw [escapeMap, noRaw_append, noRaw_entityOf, ih]; rfl

lemma ampOk_amp (r : List Char) (hr : ampOk r = true) :
    ampOk (String.toList "&amp;" ++ r) = true := by
  simp [ampOk, entTails, List.isPrefixOf, hr]

lemma ampOk_lt (r : List Char) (hr : ampOk r = true) :
    ampOk (String.toList "&lt;" ++ r) = true := by
  simp [ampOk, entTails, List.isPrefixOf, hr]

lemma ampOk_gt (r : List Char) (hr : ampOk r = true) :
    ampOk (String.toList "&gt;" ++ r) = true := by
  simp [ampOk, entTails, List.isPrefixOf, hr]

lemma ampOk_quot (r : List Char) (hr : ampOk r = true) :
    ampOk (String.toList "&quot;" ++ r) = true := by
  simp [ampOk, entTails, List.isPrefixOf, hr]

lemma ampOk_apos (r : List Char) (hr : ampOk r = true) :
    ampOk (String.toList "&#039;" ++ r) = true := by
  simp [ampOk, entTails, List.isPrefixOf, hr]

lemma ampOk_escapeMap (s : List Char) : ampOk (escapeMap s) = true := by
  induction s with
  | nil => rfl
  | cons c cs ih =>
    rw [escapeMap]
    by_cases h1 : c = '&'
    · subst h1; exact ampOk_amp _ ih
    by_cases h2 : c = '<'
    · subst h2; exact ampOk_lt _ ih
    by_cases h3 : c = '>'
    · subst h3; exact ampOk_gt _ ih
    by_cases h4 : c = '"'
    · subst h4; exact ampOk_quot _ ih
    by_cases h5 : c = apos
    · subst h5; exact ampOk_apos _ ih
    have he : entityOf c = [c] := by simp [entityOf, h1, h2, h3, h4, h5]
    rw [he]
    simp [ampOk, h1, ih]

/-- C9: for every input, `escapeHtml` returns a string with no raw
less-than, greater-than, double-quote or apostrophe character and with
every ampersand heading one of the five inserted entities; it returns the
empty string for null, undefined and empty input; and the three
user-supplied string fields interpolated into a table row by `renderTable`
— company, job URL and position — pass through `escapeHtml`. -/
theorem c9_escapeHtml_renderTable :
    (∀ v, noRaw (escapeHtml v).toList = true ∧ ampOk (escapeHtml v).toList = true)
    ∧ escapeHtml none = "" ∧ escapeHtml (some "") = ""
    ∧ (∀ fmtDate job, renderRow fmtDate job
        = rowTemplate fmtDate job (escapeHtml job.company) (escapeHtml job.job_url) (escapeHtml job.position)) := by
  refine ⟨?_, rfl, rfl, fun fmtDate job => rfl⟩
  intro v
  match v with
  | none => exact ⟨rfl, rfl⟩
  | some s =>
    by_cases h : s = ""
    · subst h; exact ⟨rfl, rfl⟩
    · have hs : (s == "") = false := by simp [h]
      have ht : (escapeHtml (some s)).toList = escChain s.toList := by
        simp only [escapeHtml, hs, if_neg, Bool.false_eq_true]
        rfl
      rw [ht, escChain_eq_escapeMap]
      exact ⟨noRaw_escapeMap _, ampOk_escapeMap _⟩

/-- C7: a 401 response through `apiRequest` redirects to the landing
route, resolves with no value rather than throwing, renders no alert, and
still runs the loading-indicator cleanup. -/
theorem c7_unauthorized_redirect (r : Response) (h : r.status = 401) :
    apiRequest r
      = { redirected := true, result := Except.ok none, loadingToggled := true, alerted := false } := by
  have hok : r.okFlag = false := by
    unfold Response.okFlag; rw [h]; decide
  have h401 : (r.status == 401) = true := by simp [h]
  unfold apiRequest
  rw [hok, h401]
  rfl

/-- Witness for c7_unauthorized_redirect at a concrete 401 response. -/
theorem c7_unauthorized_redirect_witness :
    apiRequest { status := 401, body := none }
      = { redirected := true, result := Except.ok none, loadingToggled := true, alerted := false } :=
  c7_unauthorized_redirect { status := 401, body := none } rfl

/-- C8 counterexample: a 500 response with an unparsable body makes
`apiRequest` rethrow the JSON parse error itself, not the generic
"Request failed" fallback the claim prescribes. -/
theorem c8_unparsable_body_cex :
    (apiRequest { status := 500, body := none }).result = Except.error JsErr.parseErr
    ∧ (apiRequest { status := 500, body := none }).result
        ≠ Except.error (JsErr.thrown "Request failed") := by
  constructor
  · rfl
  · decide

/-- C8 amended: on a non-2xx status other than 401, `apiRequest` fails
with the envelope message when the body parses to an object whose error
field is a non-empty string; it fails with "Request failed" when the body
parses to an object whose error field is absent or empty; and when the
body is unparsable the JSON parse error itself propagates. -/
theorem c8_error_envelope (r : Response) (h401 : r.status ≠ 401) (hok : r.okFlag = false) :
    (∀ msg, r.body = some (Json.jobj (some msg)) → msg ≠ "" →
       (apiRequest r).result = Except.error (JsErr.thrown msg))
    ∧ (r.body = some (Json.jobj none) →
       (apiRequest r).result = Except.error (JsErr.thrown "Request failed"))
    ∧ (r.body = some (Json.jobj (some "")) →
       (apiRequest r).result = Except.error (JsErr.thrown "Request failed"))
    ∧ (r.body = none → (apiRequest r).result = Except.error JsErr.parseErr) := by
  have hb : (r.status == 401) = false := by simp [h401]
  refine ⟨?_, ?_, ?_, ?_⟩
  · intro msg hbody hmsg
    have hm : (msg == "") = false := by simp [hmsg]
    unfold apiRequest
    rw [hok, hb, hbody]
    simp [getErrorProp, strOr, hm]
  · intro hbody
    unfold apiRequest
    rw [hok, hb, hbody]
    rfl
  · intro hbody
    unfold apiRequest
    rw [hok, hb, hbody]
    rfl
  · intro hbody
    unfold apiRequest
    rw [hok, hb, hbody]
    rfl

/-- Witness for c8_error_envelope at a concrete 500 response carrying an
error envelope. -/
theorem c8_error_envelope_witness :
    (apiRequest { status := 500, body := some (Json.jobj (some "boom")) }).result
      = Except.error (JsErr.thrown "boom") :=
  (c8_error_envelope { status := 500, body := some (Json.jobj (some "boom")) }
      (by decide) (by decide)).1 "boom" rfl (by decide)

/-- C10: the CSV export path bypasses the HTTP wrapper: any failing export
response — 401 included — produces the retry alert with no redirect and no
download, and the export never touches the global loading indicator. -/
theorem c10_export_bypass (r : CsvResponse) (h : r.okFlag = false) :
    exportToCSV r
      = { alerted := true, redirected := false, downloaded := false, loadingToggled := false }
    ∧ (∀ q : CsvResponse, (exportToCSV q).loadingToggled = false ∧ (exportToCSV q).redirected = false)
    ∧ (∀ q : CsvResponse, q.status = 401 →
        exportToCSV q
          = { alerted := true, redirected := false, downloaded := false, loadingToggled := false }) := by
  refine ⟨?_, ?_, ?_⟩
  · simp [exportToCSV, h]
  · intro q
    by_cases hq : q.okFlag <;> by_cases hbl : q.blobOk <;> simp [exportToCSV, hq, hbl]
  · intro q hq
    have : q.okFlag = false := by unfold CsvResponse.okFlag; rw [hq]; decide
    simp [exportToCSV, this]

/-- Witness for c10_export_bypass at a concrete failing export response. -/
theorem c10_export_bypass_witness :
    exportToCSV { status := 401, blobOk := true }
      = { alerted := true, redirected := false, downloaded := false, loadingToggled := false } :=
  (c10_export_bypass { status := 401, blobOk := true } (by decide)).1

/-! Lemmas about the request traces of `loadJobs`. -/

lemma stats_ne_jobsUrl (col ord fil : String) :
    (("/api/stats" : String) == jobsUrl col ord fil) = false := by
  rw [beq_eq_false_iff_ne]
  intro h
  have hl : ("/api/stats" : String).length = (jobsUrl col ord fil).length :=
    congrArg String.length h
  have l0 : ("/api/stats" : String).length = 10 := rfl
  have l1 : ("/api/jobs?" : String).length = 10 := rfl
  have l2 : ("sort_by=" : String).length = 8 := rfl
  have l3 : ("&sort_order=" : String).length = 12 := rfl
  have l4 : ("&status=" : String).length = 8 := rfl
  by_cases hf : fil = "" <;>
    simp [jobsUrl, hf, String.length_append, l0, l1, l2, l3, l4] at hl

lemma loadJobs_all_get (st : ClientState) (fil : String) (resp : Response) :
    ∀ q ∈ (loadJobs st fil resp).2, q.method = "GET" := by
  intro q hq
  unfold loadJobs at hq
  rcases hres : (apiRequest resp).result with e | v <;> rw [hres] at hq
  · simp at hq; rw [hq]
  · by_cases hr : renderOk v <;> simp [hr] at hq
    · rcases hq with hq | hq <;> rw [hq]
    · rw [hq]

lemma loadJobs_no_mutation (st : ClientState) (fil : String) (resp : Response) :
    (loadJobs st fil resp).2.filter isMutation = [] := by
  rw [List.filter_eq_nil_iff]
  intro q hq
  have := loadJobs_all_get st fil resp q hq
  simp [isMutation, this]

lemma loadJobs_no_delete (st : ClientState) (fil : String) (resp : Response) :
    (loadJobs st fil resp).2.filter (fun q => q.method == "DELETE") = [] := by
  rw [List.filter_eq_nil_iff]
  intro q hq
  have := loadJobs_all_get st fil resp q hq
  simp [this]

lemma loadJobs_one_reload (st : ClientState) (fil : String) (resp : Response) :
    (loadJobs st fil resp).2.filter (isGetUrl (jobsUrl st.sortColumn st.sortOrder fil))
      = [{ method := "GET", url := jobsUrl st.sortColumn st.sortOrder fil }] := by
  unfold loadJobs
  rcases hres : (apiRequest resp).result with e | v <;> simp only [hres]
  · simp [List.filter, isGetUrl]
  · by_cases hr : renderOk v <;>
      simp [hr, List.filter, isGetUrl, stats_ne_jobsUrl]

lemma loadJobs_ambient_unchanged (st : ClientState) (fil : String) (resp : Response) :
    (loadJobs st fil resp).1.sortColumn = st.sortColumn
    ∧ (loadJobs st fil resp).1.sortOrder = st.sortOrder
    ∧ (loadJobs st fil resp).1.editingJobId = st.editingJobId
    ∧ (loadJobs st fil resp).1.modalOpen = st.modalOpen := by
  unfold loadJobs
  rcases hres : (apiRequest resp).result with e | v <;> simp only [hres]
  · simp
  · by_cases hr : renderOk v <;> simp [hr]

/-- C1 counterexample: with an empty record store, `openModal(7)` still
enters edit mode — the title becomes "Edit Application" and
`editingJobId` becomes 7 — although no record with id 7 is loaded (the
find comes back empty and the form is left untouched), refuting the claim
that edit mode is entered only when the id is found in the current record
list. -/
theorem c1_edit_target_cex :
    openModal
        { jobs := some (Json.jarr []), sortColumn := "created_at", sortOrder := "desc"
        , editingJobId := none, modalOpen := false }
        formReset (some 7) "2026-01-01"
      = Except.ok
          { st := { jobs := some (Json.jarr []), sortColumn := "created_at", sortOrder := "desc"
                  , editingJobId := some 7, modalOpen := true }
          , form := formReset, title := "Edit Application" }
    ∧ jsFind (some (Json.jarr [])) 7 = Except.ok none := by
  exact ⟨rfl, rfl⟩

/-- C1 amended: `editingJobId` is set to exactly the argument of the most
recent `openModal` call — for any truthy id, whether or not it is found in
the current record list (the form is populated only when it is found, and
left unchanged otherwise) — and `closeModal` resets it to null
unconditionally. -/
theorem c1_edit_target (st : ClientState) (form : FormState) (jobId : Option Int)
    (today : String) (r : OpenResult)
    (h : openModal st form jobId today = Except.ok r) :
    r.st.editingJobId = jobId
    ∧ r.st.modalOpen = true
    ∧ (idTruthy jobId = true → r.title = "Edit Application")
    ∧ (idTruthy jobId = true → jsFind st.jobs (jobId.getD 0) = Except.ok none → r.form = form)
    ∧ (∀ s : ClientState, (closeModal s).editingJobId = none ∧ (closeModal s).modalOpen = false) := by
  unfold openModal at h
  by_cases hid : idTruthy jobId = true
  · rw [if_pos hid] at h
    rcases hf : jsFind st.jobs (jobId.getD 0) with e | jv <;> rw [hf] at h
    · exact absurd h (by simp)
    · rcases jv with _ | job
      · injection h with h
        subst h
        exact ⟨rfl, rfl, fun _ => rfl, fun _ _ => rfl, fun s => ⟨rfl, rfl⟩⟩
      · injection h with h
        subst h
        refine ⟨rfl, rfl, fun _ => rfl, ?_, fun s => ⟨rfl, rfl⟩⟩
        intro _ hnone
        exact absurd hnone (by simp)
  · rw [if_neg hid] at h
    injection h with h
    subst h
    refine ⟨rfl, rfl, fun ht => absurd ht hid, fun ht => absurd ht hid, fun s => ⟨rfl, rfl⟩⟩

/-- Witness for c1_edit_target at a concrete edit-mode open on a store
holding the target record. -/
theorem c1_edit_target_witness :
    ({ st := { jobs := some (Json.jarr [{ id := 1, company := some "Acme" }])
             , sortColumn := "created_at", sortOrder := "desc"
             , editingJobId := some 1, modalOpen := true }
     , form := { company := "Acme", position := "", status := "applied", appliedDate := ""
               , jobUrl := "", salary := "", notes := "" }
     , title := "Edit Application" } : OpenResult).st.editingJobId = some 1 :=
  (c1_edit_target
    { jobs := some (Json.jarr [{ id := 1, company := some "Acme" }])
    , sortColumn := "created_at", sortOrder := "desc", editingJobId := none, modalOpen := false }
    formReset (some 1) "2026-01-01" _ rfl).1

/-- C6 counterexample: a record with the (server-assignable) id 0 is
present in the current record list, yet `openModal(0)` takes the create
branch — the id 0 is falsy in JS — so the form is reset to blank with
today as the date instead of being populated from the matched record whose
company is "Acme". -/
theorem c6_populate_cex :
    openModal
        { jobs := some (Json.jarr [{ id := 0, company := some "Acme", position := some "Dev" }])
        , sortColumn := "created_at", sortOrder := "desc", editingJobId := none, modalOpen := false }
        formReset (some 0) "2026-10-11"
      = Except.ok
          { st := { jobs := some (Json.jarr [{ id := 0, company := some "Acme", position := some "Dev" }])
                  , sortColumn := "created_at", sortOrder := "desc"
                  , editingJobId := some 0, modalOpen := true }
          , form := { company := "", position := "", status := "", appliedDate := "2026-10-11"
                    , jobUrl := "", salary := "", notes := "" }
          , title := "Add New Application" }
    ∧ (List.find? (fun (j : Job) => j.id == 0)
        [{ id := 0, company := some "Acme", position := some "Dev" }]).isSome = true
    ∧ ("" : String) ≠ "Acme" := by
  refine ⟨rfl, rfl, by decide⟩

/-- C6 amended: for every non-zero id found in the current record list,
`openModal(id)` populates every form field from the matched record,
substituting the empty string for each absent optional field (applied
date, job URL, salary, notes); `openModal(null)` resets the form to blank
and pre-fills the applied-date field with today. -/
theorem c6_open_populates (st : ClientState) (form : FormState) (n : Int) (today : String)
    (l : List Job) (job : Job) (r : OpenResult)
    (hjobs : st.jobs = some (Json.jarr l)) (hn : n ≠ 0)
    (hfind : l.find? (fun j => j.id == n) = some job)
    (h : openModal st form (some n) today = Except.ok r) :
    (r.form = populateForm job
     ∧ r.title = "Edit Application"
     ∧ (job.applied_date = none → r.form.appliedDate = "")
     ∧ (job.job_url = none → r.form.jobUrl = "")
     ∧ (job.salary = none → r.form.salary = "")
     ∧ (job.notes = none → r.form.notes = ""))
    ∧ (∀ st2 form2 today2 r2, openModal st2 form2 none today2 = Except.ok r2 →
        r2.form = { formReset with appliedDate := today2 }
        ∧ r2.title = "Add New Application") := by
  have hid : idTruthy (some n) = true := by simp [idTruthy, hn]
  unfold openModal at h
  rw [if_pos hid] at h
  have hff : jsFind st.jobs ((some n).getD 0) = Except.ok (some job) := by
    simp [jsFind, hjobs, hfind]
  rw [hff] at h
  injection h with h
  subst h
  constructor
  · refine ⟨rfl, rfl, ?_, ?_, ?_, ?_⟩ <;> intro hx <;> simp [populateForm, hx, strOr]
  · intro st2 form2 today2 r2 h2
    unfold openModal at h2
    rw [if_neg (by simp [idTruthy])] at h2
    injection h2 with h2
    subst h2
    exact ⟨rfl, rfl⟩

/-- Witness for c6_open_populates at a concrete record with absent
optional fields. -/
theorem c6_open_populates_witness :
    ({ company := "Acme", position := "Dev", status := "applied", appliedDate := ""
     , jobUrl := "", salary := "", notes := "" } : FormState)
      = populateForm { id := 2, company := some "Acme", position := some "Dev" } :=
  ((c6_open_populates
      { jobs := some (Json.jarr [{ id := 2, company := some "Acme", position := some "Dev" }])
      , sortColumn := "created_at", sortOrder := "desc", editingJobId := none, modalOpen := false }
      formReset 2 "2026-10-11"
      [{ id := 2, company := some "Acme", position := some "Dev" }]
      { id := 2, company := some "Acme", position := some "Dev" }
      _ rfl (by decide) rfl rfl).1).1

/-- C2 counterexample: with `editingJobId` non-null but equal to 0 (a
falsy number in JS), a valid submission issues a POST to the collection
URL, not the PUT to /api/jobs/0 that the claim prescribes for every
non-null edit-target id. -/
theorem c2_submit_mode_cex :
    ((handleFormSubmit
        { jobs := some (Json.jarr []), sortColumn := "created_at", sortOrder := "desc"
        , editingJobId := some 0, modalOpen := true }
        { company := "Acme", position := "Dev", status := "applied", appliedDate := ""
        , jobUrl := "", salary := "", notes := "" }
        "" { status := 200, body := some (Json.jobj none) }
        { status := 200, body := some (Json.jarr []) }).2.1.filter isMutation)
      = [{ method := "POST", url := "/api/jobs" }]
    ∧ ({ method := "POST", url := "/api/jobs" } : Request)
        ≠ { method := "PUT", url := "/api/jobs/0" } := by
  refine ⟨by decide, by decide⟩

/-- C2 amended: for every payload whose trimmed company and position are
non-empty, submitting issues exactly one network mutation matching the
current mode — a PUT keyed by `editingJobId` when that id is truthy
(non-null and non-zero), a POST to the collection when it is null or zero
— and on a successfully settled save the modal transitions to closed and
exactly one list reload is issued. -/
theorem c2_submit_mutation (st : ClientState) (form : FormState) (fil : String)
    (saveResp reloadResp : Response)
    (hc : jsTrim form.company ≠ "") (hp : jsTrim form.position ≠ "") :
    ((handleFormSubmit st form fil saveResp reloadResp).2.1.filter isMutation
        = [saveJob st.editingJobId])
    ∧ (idTruthy st.editingJobId = true →
        saveJob st.editingJobId
          = { method := "PUT", url := "/api/jobs/" ++ toString (st.editingJobId.getD 0) })
    ∧ (st.editingJobId = none →
        saveJob st.editingJobId = { method := "POST", url := "/api/jobs" })
    ∧ (∀ v, (apiRequest saveResp).result = Except.ok v →
        (handleFormSubmit st form fil saveResp reloadResp).1.modalOpen = false
        ∧ (handleFormSubmit st form fil saveResp reloadResp).1.editingJobId = none
        ∧ (handleFormSubmit st form fil saveResp reloadResp).2.1.filter
            (isGetUrl (jobsUrl st.sortColumn st.sortOrder fil))
          = [{ method := "GET", url := jobsUrl st.sortColumn st.sortOrder fil }]) := by
  have hcc : ((mkJobData form).company == "") = false := by simp [mkJobData, hc]
  have hpp : ((mkJobData form).position == "") = false := by simp [mkJobData, hp]
  have hsave : isMutation (saveJob st.editingJobId) = true := by
    unfold saveJob
    by_cases hid : idTruthy st.editingJobId = true <;> simp [hid, isMutation]
  have hsaveget : ∀ u, isGetUrl u (saveJob st.editingJobId) = false := by
    intro u
    unfold saveJob
    by_cases hid : idTruthy st.editingJobId = true <;> simp [hid, isGetUrl]
  refine ⟨?_, ?_, ?_, ?_⟩
  · unfold handleFormSubmit
    simp only [hcc, hpp, Bool.or_self, Bool.false_eq_true, if_false]
    rcases hres : (apiRequest saveResp).result with e | v <;> simp only [hres]
    · simp [List.filter, hsave]
    · simp [List.filter, hsave, loadJobs_no_mutation]
  · intro hid
    simp [saveJob, hid]
  · intro hid
    simp [saveJob, hid, idTruthy]
  · intro v hv
    unfold handleFormSubmit
    simp only [hcc, hpp, Bool.or_self, Bool.false_eq_true, if_false, hv]
    refine ⟨rfl, rfl, ?_⟩
    simp [List.filter, hsaveget, loadJobs_one_reload]

/-- Witness for c2_submit_mutation at a concrete edit-mode submission. -/
theorem c2_submit_mutation_witness :
    ((handleFormSubmit
        { jobs := some (Json.jarr []), sortColumn := "created_at", sortOrder := "desc"
        , editingJobId := some 3, modalOpen := true }
        { company := "Acme", position := "Dev", status := "applied", appliedDate := ""
        , jobUrl := "", salary := "", notes := "" }
        "" { status := 200, body := some (Json.jobj none) }
        { status := 200, body := some (Json.jarr []) }).2.1.filter isMutation)
      = [saveJob (some 3)] :=
  (c2_submit_mutation
    { jobs := some (Json.jarr []), sortColumn := "created_at", sortOrder := "desc"
    , editingJobId := some 3, modalOpen := true }
    { company := "Acme", position := "Dev", status := "applied", appliedDate := ""
    , jobUrl := "", salary := "", notes := "" }
    "" { status := 200, body := some (Json.jobj none) }
    { status := 200, body := some (Json.jarr []) }
    (by decide) (by decide)).1

/-- C3: a submission whose trimmed company or trimmed position is empty
issues zero network calls, raises the validation alert, and leaves the
whole client state — modal visibility and edit-target id included —
unchanged. -/
theorem c3_validation_blocks (st : ClientState) (form : FormState) (fil : String)
    (saveResp reloadResp : Response)
    (h : jsTrim form.company = "" ∨ jsTrim form.position = "") :
    handleFormSubmit st form fil saveResp reloadResp
      = (st, [], { validationAlert := true, retryAlert := false }) := by
  unfold handleFormSubmit
  rcases h with h | h <;> simp [mkJobData, h]

/-- Witness for c3_validation_blocks at a concrete all-whitespace company
field. -/
theorem c3_validation_blocks_witness :
    handleFormSubmit
        { jobs := some (Json.jarr []), sortColumn := "created_at", sortOrder := "desc"
        , editingJobId := none, modalOpen := true }
        { company := "   ", position := "Dev", status := "applied", appliedDate := ""
        , jobUrl := "", salary := "", notes := "" }
        "" { status := 200, body := some (Json.jobj none) }
        { status := 200, body := some (Json.jarr []) }
      = ({ jobs := some (Json.jarr []), sortColumn := "created_at", sortOrder := "desc"
         , editingJobId := none, modalOpen := true }
        , [], { validationAlert := true, retryAlert := false }) :=
  c3_validation_blocks
    { jobs := some (Json.jarr []), sortColumn := "created_at", sortOrder := "desc"
    , editingJobId := none, modalOpen := true }
    { company := "   ", position := "Dev", status := "applied", appliedDate := ""
    , jobUrl := "", salary := "", notes := "" }
    "" { status := 200, body := some (Json.jobj none) }
    { status := 200, body := some (Json.jarr []) }
    (Or.inl (by decide))

/-- C4: declining the delete confirmation issues zero network calls and
leaves the whole client state unchanged; accepting issues exactly one
DELETE for that id, and when the DELETE settles it is followed by exactly
one list reload; when the DELETE rejects, the retry alert is shown, no
reload happens, and the record store is untouched. -/
theorem c4_delete_flow (st : ClientState) (jobId : Int) (fil : String)
    (delResp reloadResp : Response) :
    deleteJob st jobId false fil delResp reloadResp = (st, [], { retryAlert := false })
    ∧ ((deleteJob st jobId true fil delResp reloadResp).2.1.filter
          (fun q => q.method == "DELETE")
        = [deleteJobById jobId])
    ∧ (∀ v, (apiRequest delResp).result = Except.ok v →
        (deleteJob st jobId true fil delResp reloadResp).2.1.filter
            (isGetUrl (jobsUrl st.sortColumn st.sortOrder fil))
          = [{ method := "GET", url := jobsUrl st.sortColumn st.sortOrder fil }])
    ∧ (∀ e, (apiRequest delResp).result = Except.error e →
        deleteJob st jobId true fil delResp reloadResp
          = (st, [deleteJobById jobId], { retryAlert := true })) := by
  refine ⟨rfl, ?_, ?_, ?_⟩
  · unfold deleteJob
    rcases hres : (apiRequest delResp).result with e | v <;> simp only [hres]
    · simp [List.filter, deleteJobById]
    · simp [List.filter, deleteJobById, loadJobs_no_delete]
  · intro v hv
    unfold deleteJob
    simp only [hv]
    have hd : ∀ u, isGetUrl u (deleteJobById jobId) = false := by
      intro u; simp [isGetUrl, deleteJobById]
    simp [List.filter, hd, loadJobs_one_reload]
  · intro e he
    unfold deleteJob
    simp only [he]
    rfl

/-- Witness for c4_delete_flow at a concrete accepted delete whose DELETE
settles successfully. -/
theorem c4_delete_flow_witness :
    (deleteJob
        { jobs := some (Json.jarr []), sortColumn := "created_at", sortOrder := "desc"
        , editingJobId := none, modalOpen := false }
        5 true "" { status := 200, body := some (Json.jobj none) }
        { status := 200, body := some (Json.jarr []) }).2.1.filter
        (isGetUrl (jobsUrl "created_at" "desc" ""))
      = [{ method := "GET", url := jobsUrl "created_at" "desc" "" }] :=
  (c4_delete_flow
    { jobs := some (Json.jarr []), sortColumn := "created_at", sortOrder := "desc"
    , editingJobId := none, modalOpen := false }
    5 "" { status := 200, body := some (Json.jobj none) }
    { status := 200, body := some (Json.jarr []) }).2.2.1
    (some (Json.jobj none)) rfl

lemma sortTable_col (column : String) (s : ClientState) (fil : String) (resp : Response) :
    (sortTable column s fil resp).1.sortColumn
      = (if s.sortColumn == column then s.sortColumn else column) := by
  simp only [sortTable]
  by_cases hc : (s.sortColumn == column) = true
  · rw [if_pos hc, if_pos hc]
    exact (loadJobs_ambient_unchanged _ fil resp).1
  · rw [if_neg hc, if_neg hc]
    exact (loadJobs_ambient_unchanged _ fil resp).1

lemma sortTable_ord (column : String) (s : ClientState) (fil : String) (resp : Response) :
    (sortTable column s fil resp).1.sortOrder
      = (if s.sortColumn == column then (if s.sortOrder == "asc" then "desc" else "asc")
         else "asc") := by
  simp only [sortTable]
  by_cases hc : (s.sortColumn == column) = true
  · rw [if_pos hc, if_pos hc]
    exact (loadJobs_ambient_unchanged _ fil resp).2.1
  · rw [if_neg hc, if_neg hc]
    exact (loadJobs_ambient_unchanged _ fil resp).2.1

/-- C5: clicking the active sort column flips the order between "asc" and
"desc" (so clicking it twice restores the original order and column);
clicking a different column makes it active with order "asc"; and each
invocation triggers exactly one list reload carrying the updated sort
parameters rather than re-sorting client-side. -/
theorem c5_sort_toggle (st : ClientState) (k fil : String) (r1 r2 : Response)
    (ho : st.sortOrder = "asc" ∨ st.sortOrder = "desc") :
    ((sortTable st.sortColumn st fil r1).1.sortColumn = st.sortColumn
      ∧ (st.sortOrder = "asc" → (sortTable st.sortColumn st fil r1).1.sortOrder = "desc")
      ∧ (st.sortOrder = "desc" → (sortTable st.sortColumn st fil r1).1.sortOrder = "asc")
      ∧ (sortTable st.sortColumn (sortTable st.sortColumn st fil r1).1 fil r2).1.sortOrder
          = st.sortOrder
      ∧ (sortTable st.sortColumn (sortTable st.sortColumn st fil r1).1 fil r2).1.sortColumn
          = st.sortColumn)
    ∧ (k ≠ st.sortColumn →
        (sortTable k st fil r1).1.sortColumn = k
        ∧ (sortTable k st fil r1).1.sortOrder = "asc")
    ∧ ((sortTable k st fil r1).2.filter
          (isGetUrl (jobsUrl (sortTable k st fil r1).1.sortColumn
            (sortTable k st fil r1).1.sortOrder fil))
        = [{ method := "GET"
           , url := jobsUrl (sortTable k st fil r1).1.sortColumn
               (sortTable k st fil r1).1.sortOrder fil }]) := by
  have c1 : (sortTable st.sortColumn st fil r1).1.sortColumn = st.sortColumn := by
    rw [sortTable_col]; simp
  have o1 : (sortTable st.sortColumn st fil r1).1.sortOrder
      = (if st.sortOrder == "asc" then "desc" else "asc") := by
    rw [sortTable_ord]; simp
  refine ⟨⟨c1, ?_, ?_, ?_, ?_⟩, ?_, ?_⟩
  · intro ha; rw [o1, ha]; rfl
  · intro ha; rw [o1, ha]; rfl
  · rw [sortTable_ord, c1, o1]
    rcases ho with ha | ha <;> rw [ha] <;> simp
  · rw [sortTable_col, c1]
    simp
  · intro hk
    have hne : (st.sortColumn == k) = false := by
      rw [beq_eq_false_iff_ne]
      exact fun hh => hk hh.symm
    constructor
    · rw [sortTable_col, hne]; rfl
    · rw [sortTable_ord, hne]; rfl
  · simp only [sortTable]
    by_cases hc : (st.sortColumn == k) = true
    · rw [if_pos hc]
      have h1 := loadJobs_ambient_unchanged
        { st with sortOrder := if st.sortOrder == "asc" then "desc" else "asc" } fil r1
      rw [h1.1, h1.2.1]
      exact loadJobs_one_reload _ fil r1
    · rw [if_neg hc]
      have h1 := loadJobs_ambient_unchanged { st with sortColumn := k, sortOrder := "asc" } fil r1
      rw [h1.1, h1.2.1]
      exact loadJobs_one_reload _ fil r1

/-- Witness for c5_sort_toggle: toggling the active column twice restores
the original descending order. -/
theorem c5_sort_toggle_witness :
    (sortTable "created_at"
        (sortTable "created_at"
          { jobs := some (Json.jarr []), sortColumn := "created_at", sortOrder := "desc"
          , editingJobId := none, modalOpen := false }
          "" { status := 200, body := some (Json.jarr []) }).1
        "" { status := 200, body := some (Json.jarr []) }).1.sortOrder = "desc" :=
  ((c5_sort_toggle
    { jobs := some (Json.jarr []), sortColumn := "created_at", sortOrder := "desc"
    , editingJobId := none, modalOpen := false }
    "company" "" { status := 200, body := some (Json.jarr []) }
    { status := 200, body := some (Json.jarr []) }
    (Or.inr rfl)).1).2.2.2.1

end JobTracker
